import Mathlib

/-
Shallow embedding of src/deploy/functions/runtimes/golang/index.ts
(the golang runtime delegate of firebase-tools).

External effects (file reads, process spawns, HTTP fetches, port
allocation) are modelled by passing their outcomes in as explicit
parameters, and by returning the list of effects an execution performs.
-/

namespace Golang

/-- A JavaScript error value: either a FirebaseError (message plus a list
of child-error messages, the diagnostic context) or a plain system/JS
error carrying a message. -/
inductive Err where
  | firebase (message : String) (children : List String)
  | sys (message : String)
deriving DecidableEq, Repr

/-- Environment-variable maps and JS objects of string values: a key is
either present with a string value or absent (JS: undefined). -/
def EnvMap : Type := String → Option String

/-- Denotation of the JS object spread, with b taking precedence over a
(later spread wins). -/
def jsMerge (a b : EnvMap) : EnvMap :=
  fun k => match b k with
  | some v => some v
  | none => a k

/-- Denotation of an explicit key in a JS object literal: sets the key to
the given (possibly undefined) value, overriding earlier entries. -/
def jsSet (m : EnvMap) (key : String) (v : Option String) : EnvMap :=
  fun k => if k = key then v else m k

/-- modules.Module as used by index.ts: the declared module name and the
declared language-version string (empty string when not declared,
matching JS falsiness of the version field). -/
structure Module where
  module : String
  version : String
deriving DecidableEq, Repr

/-- The static version-to-runtime table VERSION_TO_RUNTIME. -/
def VERSION_TO_RUNTIME : List (String × String) := [("1.13", "go113")]

/-- Lookup in VERSION_TO_RUNTIME. -/
def lookupRuntime (v : String) : Option String :=
  VERSION_TO_RUNTIME.lookup v

/-- ObjectKeys(VERSION_TO_RUNTIME).join(", ") in the error message. -/
def supportedVersions : String :=
  String.intercalate ", " (VERSION_TO_RUNTIME.map (fun p => p.1))

/-- The error message built for an unsupported go.mod version. -/
def unsupportedVersionMsg (v : String) : String :=
  "go.mod specifies Golang version " ++ v ++
    " which is unsupported by Google Cloud Functions. Valid values are " ++
    supportedVersions

/-- JS truthiness of an optional string (undefined and the empty string
are falsy). -/
def jsTruthy : Option String → Bool
  | none => false
  | some s => s != ""

/-- The Delegate object constructed by tryCreateDelegate. -/
structure Delegate where
  projectId : String
  sourceDir : String
  runtime : String
  module : Module
deriving DecidableEq, Repr

/-- tryCreateDelegate. Outcomes of the two effectful steps are passed in:
readResult is the result of reading go.mod, parseModule is the parse
function applied to its text. The try/catch around both returns
undefined (modelled as Option.none inside Except.ok) on any failure of
either step. runtimeOverride is options.config.get of functions.runtime. -/
def tryCreateDelegate (projectId sourceDir : String)
    (runtimeOverride : Option String)
    (readResult : Except Err String)
    (parseModule : String → Except Err Module) :
    Except Err (Option Delegate) :=
  let parsed : Except Err Module :=
    match readResult with
    | Except.error e => Except.error e
    | Except.ok text => parseModule text
  match parsed with
  | Except.error _ => Except.ok none
  | Except.ok m =>
    if jsTruthy runtimeOverride then
      Except.ok (some ⟨projectId, sourceDir, runtimeOverride.getD "", m⟩)
    else if m.version = "" then
      Except.error (Err.firebase "Could not detect Golang version from go.mod" [])
    else
      match lookupRuntime m.version with
      | none => Except.error (Err.firebase (unsupportedVersionMsg m.version) [])
      | some rt => Except.ok (some ⟨projectId, sourceDir, rt, m⟩)

/-- path.join for two segments. -/
def pathJoin (a b : String) : String := a ++ "/" ++ b

/-- Whether a string contains the given nonempty substring; models the
regex test EEXIST.exec(message). -/
def strContains (haystack needle : String) : Bool :=
  (haystack.splitOn needle).length ≥ 2

/-- Result of spawn.sync: exit status (none models a null status, e.g.
death by signal) and the captured output streams. -/
structure SpawnSyncResult where
  status : Option Int
  stdout : String
  stderr : String
deriving DecidableEq, Repr

/-- The codegen step of Delegate.build after the mkdir handling: on a
status loosely unequal to 0 it throws the tagged FirebaseError carrying
captured stderr; otherwise it writes captured stdout to
sourceDir/autogen/main.go (modelled by returning the written path and
contents). -/
def buildCodegenStep (sourceDir : String) (getDeps : SpawnSyncResult) :
    Except Err (String × String) :=
  match getDeps.status with
  | some 0 =>
    Except.ok (pathJoin (pathJoin sourceDir "autogen") "main.go", getDeps.stdout)
  | _ =>
    Except.error (Err.firebase "Failed to run codegen" [getDeps.stderr])

/-- Delegate.build. mkdirResult is the outcome of creating the autogen
directory (error carries the JS error message); an EEXIST failure is
swallowed, any other mkdir failure is fatal with the original error in
the diagnostic children. -/
def build (sourceDir : String) (mkdirResult : Except String Unit)
    (getDeps : SpawnSyncResult) : Except Err (String × String) :=
  match mkdirResult with
  | Except.error msg =>
    if strContains msg "EEXIST" then buildCodegenStep sourceDir getDeps
    else Except.error (Err.firebase "Failed to create codegen directory" [msg])
  | Except.ok _ => buildCodegenStep sourceDir getDeps

/-- The env object built in Delegate.serve, spread for spread:
braces holding ...envs, ...process.env, then explicit keys GOPATH,
PORT, ADMIN_PORT, PATH in source order. -/
def childEnv (procEnv envs : EnvMap) (port adminPort : Nat) : EnvMap :=
  jsSet (jsSet (jsSet (jsSet (jsMerge envs procEnv)
    "GOPATH" (procEnv "GOPATH"))
    "PORT" (some (toString port)))
    "ADMIN_PORT" (some (toString adminPort)))
    "PATH" (procEnv "PATH")

/-- The spawn performed by Delegate.serve. -/
structure SpawnSpec where
  cmd : String
  args : List String
  env : EnvMap
  cwd : String

/-- Delegate.serve: the child-process spawn it performs. -/
def serve (sourceDir : String) (procEnv : EnvMap) (port adminPort : Nat)
    (envs : EnvMap) : SpawnSpec :=
  { cmd := "go"
    args := ["run", "./autogen"]
    env := childEnv procEnv envs port adminPort
    cwd := sourceDir }

/-- The stop handle returned by Delegate.serve. fetchResult is the
outcome of await fetch on the quitquitquit admin endpoint; procPromise
is the promise p settling when the child exits (ok) or reports a launch
error (error). Returns the settlement of the handle together with
whether the forced SIGKILL timer was armed. The fetch is awaited with no
catch: its rejection makes the handle reject before the timer is set. -/
def stopHandle (fetchResult : Except Err Unit)
    (procPromise : Except Err Unit) : Except Err Unit × Bool :=
  match fetchResult with
  | Except.error e => (Except.error e, false)
  | Except.ok _ => (procPromise, true)

/-- Observable effects of a discoverSpec execution. -/
inductive Effect where
  | allocPort (port : Nat)
  | spawnProc (port adminPort : Nat)
  | probePort (port : Nat)
  | stopInvoked
deriving DecidableEq, Repr

/-- The discovered backend: the part of the spec the claims inspect,
namely its environmentVariables field, plus an opaque payload standing
for the rest of the discovered document. -/
structure Backend where
  payload : String
  environmentVariables : EnvMap

/-- The effects the dynamic path of discoverSpec performs, in order: two
port allocations, the serve spawn, the probe of the hardcoded port 8081,
and the stop-handle invocation in the finally block. The trace is the
same whatever the probe and stop outcomes are: all these effects occur
before the dynamic path settles. -/
def dynamicTrace (port adminPort : Nat) : List Effect :=
  [Effect.allocPort port, Effect.allocPort adminPort,
    Effect.spawnProc port adminPort, Effect.probePort 8081,
    Effect.stopInvoked]

/-- Settlement of the try/finally of the dynamic path, followed by the
envs overwrite: killResult is the awaited stop handle. A rejection of
the finally block supersedes both a normal probe result and a probe
error; otherwise a probe error is rethrown unchanged and a probe result
is returned with environmentVariables overwritten. -/
def dynamicSettle (probeResult : Except Err Backend)
    (killResult : Except Err Unit) (envs : EnvMap) : Except Err Backend :=
  match probeResult, killResult with
  | Except.ok d, Except.ok _ => Except.ok { d with environmentVariables := envs }
  | Except.ok _, Except.error e => Except.error e
  | Except.error e, Except.ok _ => Except.error e
  | Except.error _, Except.error e => Except.error e

/-- Delegate.discoverSpec. yamlResult is what discovery.detectFromYaml
returned (some backend when the static spec file is present and parses);
port and adminPort are the two portfinder results; probeResult is the
outcome of discovery.detectFromPort on the hardcoded port 8081;
fetchResult and procPromise feed the stop handle produced by serve.
Returns the settlement together with the effect trace. -/
def discoverSpec (yamlResult : Option Backend) (port adminPort : Nat)
    (probeResult : Except Err Backend)
    (fetchResult procPromise : Except Err Unit)
    (envs : EnvMap) : Except Err Backend × List Effect :=
  match yamlResult with
  | some d => (Except.ok { d with environmentVariables := envs }, [])
  | none =>
    (dynamicSettle probeResult (stopHandle fetchResult procPromise).1 envs,
      dynamicTrace port adminPort)

end Golang

namespace Golang

/- Concrete inputs used by witnesses and counterexamples. -/

/-- The empty environment. -/
def envNil : EnvMap := fun _ => none

/-- A parse function that fails, modelling an unparseable go.mod. -/
def pfParseFail : String → Except Err Module :=
  fun _ => Except.error (Err.sys "go.mod has no module directive")

/-- A parse function returning a module with an unmapped version. -/
def pfUnsupported : String → Except Err Module :=
  fun _ => Except.ok ⟨"example.com/fns", "9.99"⟩

/-- A parse function returning a module with no version declared. -/
def pfNoVersion : String → Except Err Module :=
  fun _ => Except.ok ⟨"example.com/fns", ""⟩

/-- A process environment with FOO set, for the layering counterexample. -/
def procEnvC2 : EnvMap := fun k => if k = "FOO" then some "inherited" else none

/-- A user env with the same key FOO, for the layering counterexample. -/
def userEnvC2 : EnvMap := fun k => if k = "FOO" then some "user" else none

/-- A process environment with PATH and GOPATH set. -/
def procEnvW : EnvMap :=
  fun k => if k = "GOPATH" then some "/go"
    else if k = "PATH" then some "/usr/bin" else none

/-- A user env supplying only FOO. -/
def userEnvW : EnvMap := fun k => if k = "FOO" then some "uservalue" else none

/-- A user env supplying only FOO=bar. -/
def envUser : EnvMap := fun k => if k = "FOO" then some "bar" else none

/-- Claim C6: when no runtime override is configured and go.mod declares a
version string absent from the version-to-runtime table,
tryCreateDelegate fails with a FirebaseError whose message names the
offending version and lists the supported versions. -/
theorem tryCreateDelegate_unsupported_version (pid dir text : String)
    (pf : String → Except Err Module) (m : Module)
    (hpf : pf text = Except.ok m)
    (hv : m.version ≠ "") (hmap : lookupRuntime m.version = none) :
    tryCreateDelegate pid dir none (Except.ok text) pf =
      Except.error (Err.firebase (unsupportedVersionMsg m.version) []) ∧
    (∃ a b, unsupportedVersionMsg m.version = a ++ m.version ++ b) ∧
    (∃ a b, unsupportedVersionMsg m.version = a ++ supportedVersions ++ b) := by
  refine ⟨?_, ?_, ?_⟩
  · simp [tryCreateDelegate, hpf, jsTruthy, hv, hmap]
  · exact ⟨"go.mod specifies Golang version ",
      " which is unsupported by Google Cloud Functions. Valid values are " ++
        supportedVersions,
      by simp [unsupportedVersionMsg, String.append_assoc]⟩
  · exact ⟨"go.mod specifies Golang version " ++ m.version ++
      " which is unsupported by Google Cloud Functions. Valid values are ", "",
      by simp [unsupportedVersionMsg, String.append_assoc]⟩

/-- Witness for C6 at the concrete unsupported version 9.99. -/
theorem tryCreateDelegate_unsupported_version_witness :
    tryCreateDelegate "proj" "src" none (Except.ok "module example.com/fns")
        pfUnsupported =
      Except.error (Err.firebase (unsupportedVersionMsg "9.99") []) :=
  (tryCreateDelegate_unsupported_version "proj" "src" "module example.com/fns"
    pfUnsupported ⟨"example.com/fns", "9.99"⟩ rfl (by decide) (by decide)).1

end Golang

namespace Golang

/-- Claim C9 (amended): an absent go.mod makes tryCreateDelegate return
undefined rather than throw; a go.mod parse failure is however not
distinguished from absence: it is caught by the same handler and also
yields undefined. -/
theorem tryCreateDelegate_absent_manifest (pid dir : String)
    (ro : Option String) (e : Err) (pf : String → Except Err Module) :
    tryCreateDelegate pid dir ro (Except.error e) pf = Except.ok none ∧
    ∀ text e2, pf text = Except.error e2 →
      tryCreateDelegate pid dir ro (Except.ok text) pf = Except.ok none := by
  constructor
  · simp [tryCreateDelegate]
  · intro text e2 h
    simp [tryCreateDelegate, h]

/-- Witness for C9 at a concrete unparseable manifest. -/
theorem tryCreateDelegate_absent_manifest_witness :
    tryCreateDelegate "proj" "src" none (Except.ok "not a go.mod") pfParseFail =
      Except.ok none :=
  (tryCreateDelegate_absent_manifest "proj" "src" none (Err.sys "ENOENT")
    pfParseFail).2 "not a go.mod" (Err.sys "go.mod has no module directive") rfl

/-- Counterexample for C9: the absent-manifest outcome is not
distinguished from a manifest parse failure; both produce the very same
result, undefined (Option.none) without an error. -/
theorem tryCreateDelegate_parse_failure_not_distinguished :
    tryCreateDelegate "proj" "src" none (Except.error (Err.sys "ENOENT"))
        pfUnsupported =
      Except.ok none ∧
    tryCreateDelegate "proj" "src" none (Except.ok "not a go.mod")
        pfParseFail =
      Except.ok none := ⟨rfl, rfl⟩

/-- Claim C10: with an explicitly configured functions.runtime override,
tryCreateDelegate uses that runtime directly for any parsed module
whatsoever, so the version table is never consulted and no version
validation error can be thrown. -/
theorem tryCreateDelegate_override_bypasses_validation (pid dir text rt : String)
    (hrt : rt ≠ "") (pf : String → Except Err Module) (m : Module)
    (hpf : pf text = Except.ok m) :
    tryCreateDelegate pid dir (some rt) (Except.ok text) pf =
      Except.ok (some ⟨pid, dir, rt, m⟩) := by
  simp [tryCreateDelegate, hpf, jsTruthy, hrt]

/-- Witness for C10: the override applies even when go.mod declares no
version at all, which without the override would be a fatal error. -/
theorem tryCreateDelegate_override_bypasses_validation_witness :
    tryCreateDelegate "proj" "src" (some "go116")
        (Except.ok "module example.com/fns") pfNoVersion =
      Except.ok (some ⟨"proj", "src", "go116", ⟨"example.com/fns", ""⟩⟩) :=
  tryCreateDelegate_override_bypasses_validation "proj" "src"
    "module example.com/fns" "go116" (by decide) pfNoVersion
    ⟨"example.com/fns", ""⟩ rfl

/-- Claim C8: when the codegen command exits non-zero, build fails with
the tagged FirebaseError whose diagnostic children carry the captured
stderr; on zero exit the captured stdout is written verbatim to
autogen/main.go under the source directory. -/
theorem build_codegen_contract (dir : String) (mkdirResult : Except String Unit)
    (hmk : mkdirResult = Except.ok () ∨
      ∃ msg, mkdirResult = Except.error msg ∧ strContains msg "EEXIST" = true)
    (getDeps : SpawnSyncResult) :
    (getDeps.status ≠ some 0 →
      build dir mkdirResult getDeps =
        Except.error (Err.firebase "Failed to run codegen" [getDeps.stderr])) ∧
    (getDeps.status = some 0 →
      build dir mkdirResult getDeps =
        Except.ok (pathJoin (pathJoin dir "autogen") "main.go", getDeps.stdout)) := by
  have hstep : build dir mkdirResult getDeps = buildCodegenStep dir getDeps := by
    rcases hmk with h | ⟨msg, hm, hc⟩
    · simp [build, h]
    · simp [build, hm, hc]
  constructor
  · intro h
    rw [hstep]
    unfold buildCodegenStep
    split
    · next heq => exact absurd heq h
    · rfl
  · intro h
    rw [hstep]
    unfold buildCodegenStep
    rw [h]
    rfl

/-- Witness for C8: codegen exits with status 1 and stderr saying module
not found; build fails with that text embedded in the error children. -/
theorem build_codegen_contract_witness :
    build "src" (Except.ok ()) ⟨some 1, "", "module not found"⟩ =
      Except.error (Err.firebase "Failed to run codegen" ["module not found"]) :=
  (build_codegen_contract "src" (Except.ok ()) (Or.inl rfl)
    ⟨some 1, "", "module not found"⟩).1 (by decide)

/-- Claim C1 (code bug): the stop handle awaits the admin-endpoint fetch
with no catch, so when that request fails (connection refused) the stop
handle rejects with the fetch error and the forced SIGKILL timer is
never armed: the shutdown sequence is aborted rather than proceeding. -/
theorem stopHandle_rejects_on_fetch_failure :
    stopHandle (Except.error (Err.sys "FetchError: ECONNREFUSED"))
        (Except.ok ()) =
      (Except.error (Err.sys "FetchError: ECONNREFUSED"), false) ∧
    ∀ e p, stopHandle (Except.error e) p = (Except.error e, false) :=
  ⟨rfl, fun _ _ => rfl⟩

end Golang

namespace Golang

/-- Counterexample for C2: with the same key FOO supplied both by the
inherited process environment and by the user envs, the child process
sees the inherited value, not the user one: the spread order in serve
puts the inherited environment after the user envs, so the inherited
variable wins. -/
theorem childEnv_user_does_not_override_inherited :
    userEnvC2 "FOO" = some "user" ∧
    procEnvC2 "FOO" = some "inherited" ∧
    (serve "src" procEnvC2 8080 8081 userEnvC2).env "FOO" = some "inherited" := by
  refine ⟨rfl, rfl, ?_⟩
  simp [serve, childEnv, jsSet, jsMerge, procEnvC2, userEnvC2]

/-- Claim C2 (amended): the child environment built by serve layers, in
increasing precedence, the user-supplied envs first, then the inherited
process environment (so an inherited variable overrides a same-named
user-supplied one), then the explicit keys GOPATH, PORT, ADMIN_PORT and
PATH in source order, with GOPATH and PATH re-asserted from the
inherited environment and the two port variables injected. -/
theorem childEnv_layering (dir : String) (procEnv envs : EnvMap)
    (port adminPort : Nat) :
    (serve dir procEnv port adminPort envs).env "PATH" = procEnv "PATH" ∧
    (serve dir procEnv port adminPort envs).env "ADMIN_PORT" =
      some (toString adminPort) ∧
    (serve dir procEnv port adminPort envs).env "PORT" = some (toString port) ∧
    (serve dir procEnv port adminPort envs).env "GOPATH" = procEnv "GOPATH" ∧
    ∀ k, k ≠ "PATH" → k ≠ "ADMIN_PORT" → k ≠ "PORT" → k ≠ "GOPATH" →
      (serve dir procEnv port adminPort envs).env k =
        match procEnv k with
        | some v => some v
        | none => envs k := by
  refine ⟨rfl, rfl, rfl, rfl, ?_⟩
  intro k h1 h2 h3 h4
  simp [serve, childEnv, jsSet, jsMerge, h1, h2, h3, h4]

/-- Witness for C2: a variable set only in the user envs survives into
the child environment, and PATH comes from the inherited environment. -/
theorem childEnv_layering_witness :
    (serve "src" procEnvW 7001 7002 userEnvW).env "FOO" = some "uservalue" ∧
    (serve "src" procEnvW 7001 7002 userEnvW).env "PATH" = some "/usr/bin" := by
  have h := childEnv_layering "src" procEnvW userEnvW 7001 7002
  constructor
  · have h5 := h.2.2.2.2 "FOO" (by decide) (by decide) (by decide) (by decide)
    rw [h5]
    rfl
  · rw [h.1]
    rfl

end Golang

namespace Golang

/-- Claim C5: when the static declarative spec file is present and parses
(detectFromYaml returned a backend), discoverSpec returns it directly
with the envs overwrite, performing no effect at all: no port is
allocated and no child process is spawned. -/
theorem discoverSpec_static_short_circuit (d : Backend) (port adminPort : Nat)
    (probeResult : Except Err Backend) (fetchResult procPromise : Except Err Unit)
    (envs : EnvMap) :
    discoverSpec (some d) port adminPort probeResult fetchResult procPromise envs =
      (Except.ok { d with environmentVariables := envs }, []) := rfl

/-- Claim C4: whenever discoverSpec succeeds, on either discovery path,
the returned backend has its environmentVariables field equal to the
envs argument. -/
theorem discoverSpec_env_authoritative (yamlResult : Option Backend)
    (port adminPort : Nat) (probeResult : Except Err Backend)
    (fetchResult procPromise : Except Err Unit) (envs : EnvMap) (b : Backend)
    (h : (discoverSpec yamlResult port adminPort probeResult fetchResult
        procPromise envs).1 =
      Except.ok b) :
    b.environmentVariables = envs := by
  rcases yamlResult with _ | d
  · simp only [discoverSpec] at h
    unfold dynamicSettle at h
    split at h
    · simp only [Except.ok.injEq] at h
      rw [← h]
    · exact Except.noConfusion h
    · exact Except.noConfusion h
    · exact Except.noConfusion h
  · simp only [discoverSpec] at h
    simp only [Except.ok.injEq] at h
    rw [← h]

/-- Witness for C4 on the static path at concrete inputs. -/
theorem discoverSpec_env_authoritative_witness :
    (Backend.mk "static" envUser).environmentVariables = envUser :=
  discoverSpec_env_authoritative (some ⟨"static", envNil⟩) 3000 3001
    (Except.ok ⟨"dyn", envNil⟩) (Except.ok ()) (Except.ok ()) envUser
    ⟨"static", envUser⟩ rfl

/-- Claim C7: on the dynamic path the HTTP probe for the self-reported
spec targets the hardcoded port 8081, never the dynamically allocated
primary port handed to the launched server. -/
theorem discoverSpec_probe_fixed_port (port adminPort : Nat)
    (probeResult : Except Err Backend) (fetchResult procPromise : Except Err Unit)
    (envs : EnvMap) (hport : port ≠ 8081) :
    Effect.probePort 8081 ∈
      (discoverSpec none port adminPort probeResult fetchResult procPromise
        envs).2 ∧
    Effect.probePort port ∉
      (discoverSpec none port adminPort probeResult fetchResult procPromise
        envs).2 := by
  constructor
  · simp [discoverSpec, dynamicTrace]
  · simp [discoverSpec, dynamicTrace, hport]

/-- Witness for C7 at concrete ports 3000 and 3001. -/
theorem discoverSpec_probe_fixed_port_witness :
    Effect.probePort 8081 ∈
      (discoverSpec none 3000 3001 (Except.ok ⟨"dyn", envNil⟩) (Except.ok ())
        (Except.ok ()) envNil).2 ∧
    Effect.probePort 3000 ∉
      (discoverSpec none 3000 3001 (Except.ok ⟨"dyn", envNil⟩) (Except.ok ())
        (Except.ok ()) envNil).2 :=
  discoverSpec_probe_fixed_port 3000 3001 (Except.ok ⟨"dyn", envNil⟩)
    (Except.ok ()) (Except.ok ()) envNil (by decide)

/-- Claim C3 (amended): on the dynamic path the stop handle is invoked
and awaited on every exit path of discoverSpec, and when the HTTP probe
throws while the stop handle itself resolves, the original probe error
is rethrown unchanged; when the stop handle rejects, its rejection
supersedes the probe error (JS try/finally semantics). -/
theorem discoverSpec_cleanup_and_rethrow (port adminPort : Nat)
    (probeResult : Except Err Backend) (fetchResult procPromise : Except Err Unit)
    (envs : EnvMap) :
    Effect.stopInvoked ∈
      (discoverSpec none port adminPort probeResult fetchResult procPromise
        envs).2 ∧
    ∀ e, probeResult = Except.error e →
      (stopHandle fetchResult procPromise).1 = Except.ok () →
      (discoverSpec none port adminPort probeResult fetchResult procPromise
          envs).1 =
        Except.error e := by
  constructor
  · simp [discoverSpec, dynamicTrace]
  · intro e he hk
    simp [discoverSpec, dynamicSettle, he, hk]

/-- Witness for C3: probe fails while the stop handle resolves; the probe
error comes back unchanged. -/
theorem discoverSpec_cleanup_and_rethrow_witness :
    (discoverSpec none 3000 3001 (Except.error (Err.sys "discovery probe failed"))
        (Except.ok ()) (Except.ok ()) envNil).1 =
      Except.error (Err.sys "discovery probe failed") :=
  (discoverSpec_cleanup_and_rethrow 3000 3001
      (Except.error (Err.sys "discovery probe failed")) (Except.ok ())
      (Except.ok ()) envNil).2
    (Err.sys "discovery probe failed") rfl rfl

/-- Counterexample for C3: when the probe throws and the stop handle
rejects (here because the admin shutdown fetch failed), the error
rethrown by discoverSpec is the stop-handle rejection, not the original
probe error: the original error is not rethrown unchanged. -/
theorem discoverSpec_finally_rejection_supersedes :
    (discoverSpec none 3000 3001 (Except.error (Err.sys "discovery probe failed"))
        (Except.error (Err.sys "FetchError: ECONNREFUSED")) (Except.ok ())
        envNil).1 =
      Except.error (Err.sys "FetchError: ECONNREFUSED") ∧
    Err.sys "FetchError: ECONNREFUSED" ≠ Err.sys "discovery probe failed" :=
  ⟨rfl, by decide⟩

end Golang
